import Mathlib

/-!
Verification of the Tilde arithmetic approximation model from
`src/TildeMathematicaClean.jsx`.

The core numeric model is embedded shallowly: JavaScript numbers are
modelled as real numbers (`ℝ`) where the code manipulates reals, and the
integer-valued quantities (operands, bit width, LUT lengths, gate counts)
as `ℤ`/`ℕ`.  `Math.floor` is `Int.floor`, `Math.log` is `Real.log`,
`Math.exp` is `Real.exp`.  The expression `(1 << bitWidth) - 1` is
modelled with JavaScript's wrapping 32-bit shift semantics (`toInt32` /
`jsMaxValue` below): the shift count is taken mod 32 and the result is
reinterpreted as a signed 32-bit integer, so at `bitWidth = 31` the
program's `maxValue` is `-2147483649`, not `2^31 - 1`.  `Math.round`
applied to integer-valued expressions is the identity and is dropped.

Where IEEE-754 behaviour of doubles decides a claim it is modelled
explicitly: a small `JSNum` model (finite / +∞ / −∞ / NaN) of the
relevant `Math` operations states what the code returns at the β = 1
singularity, and a scaled-integer round-to-nearest-even model
(`rneDiv` / `calculateLutLengthFP11`) evaluates `calculateLutLength(1.1)`
exactly as double-precision division does.
-/

noncomputable section

namespace Tilde

/-- `const EFFICIENCY_THRESHOLD = 2.0` (line 52 of the source). -/
def EFFICIENCY_THRESHOLD : ℝ := 2.0

/-- `betaToSlider` (source lines 110–119). -/
def betaToSlider (beta : ℝ) : ℝ :=
  if beta ≤ 1.02 then 0
  else if beta ≥ 30.0 then 100
  else
    let logBeta := Real.log (beta - 1.0)
    let logMin := Real.log 0.02
    let logMax := Real.log 29.0
    ((logBeta - logMin) / (logMax - logMin)) * 100

/-- `sliderToBeta` (source lines 121–127). -/
def sliderToBeta (sliderValue : ℝ) : ℝ :=
  let logMin := Real.log 0.02
  let logMax := Real.log 29.0
  let logBeta := logMin + (sliderValue / 100) * (logMax - logMin)
  max 1.02 (min 30.0 (1.0 + Real.exp logBeta))

/-- `calculateLutLength` (source lines 130–133). -/
def calculateLutLength (beta : ℝ) : ℤ :=
  let baseLength : ℤ := max 1 ⌊8 / (beta - 1)⌋
  if beta ≥ EFFICIENCY_THRESHOLD then 1 else baseLength

/-- `getLutValue` (source lines 135–138). -/
def getLutValue (d : ℤ) (beta : ℝ) : ℤ :=
  if beta ≥ EFFICIENCY_THRESHOLD ∧ d > 0 then 1
  else min d ⌊Real.log (d + 1) / Real.log beta⌋

/-- JavaScript's `ToInt32`: reduce mod 2^32 into the signed range
[−2^31, 2^31). -/
def toInt32 (x : ℤ) : ℤ := (x + 2 ^ 31) % 2 ^ 32 - 2 ^ 31

/-- `maxValue = (1 << bitWidth) - 1` (source line 955).  JavaScript's `<<`
masks the shift count to its low 5 bits and produces a signed 32-bit
result, so `1 << w` is `toInt32 (2 ^ (w % 32))`; at `w = 31` this makes
`maxValue = -2147483649`. -/
def jsMaxValue (w : ℕ) : ℤ := toInt32 (2 ^ (w % 32)) - 1

/-- The `result` memo of the main component (source lines 968–998):
`Za = (a === 0)`, `Zb = (b === 0)`, `Ua = (a === 1)`, `Ub = (b === 1)`,
`E = (a === b)`, `d = |a − b|`, `m = max(a, b)`,
`maxValue = (1 << bitWidth) − 1`; a `switch` on the operation string with
`default: res = 0`, then the clamp `Math.min(Math.max(0, res), maxValue)`. -/
def result (operation : String) (a b : ℤ) (w : ℕ) (beta : ℝ) : ℤ :=
  let maxValue : ℤ := jsMaxValue w
  let d : ℤ := |a - b|
  let m : ℤ := max a b
  let res : ℤ :=
    match operation with
    | "add" => if a = 0 ∨ b = 0 then m
               else if d < 8 then m + getLutValue d beta
               else m
    | "sub" => if a = b then 0
               else if a = 0 ∨ b = 0 then m
               else m - getLutValue d beta
    | "mul" => if a = 0 ∨ b = 0 then 0
               else if a = 1 ∨ b = 1 then m
               else a + b - 1
    | "div" => if a = 0 then 0
               else if b = 0 then maxValue
               else if a = b then 1
               else a - b + 1
    | _ => 0
  min (max 0 res) maxValue

/-- `gateCount` record (source lines 1013–1023). -/
structure GateCount where
  base : ℤ
  lut : ℤ
  total : ℤ
  shared : ℤ
  add : ℤ
  sub : ℤ
  mul : ℤ
  div : ℤ
  control : ℤ
  deriving Repr, DecidableEq

/-- The `gateCount` memo (source lines 1000–1024); `lutLength` is
`calculateLutLength(beta)` as wired at source line 956.  The `Math.round`
calls are on integer-valued expressions and are identities. -/
def gateCount (bitWidth : ℤ) (beta : ℝ) : GateCount :=
  let lutLength := calculateLutLength beta
  let sharedGates := bitWidth * 6 + 32
  let addGates := bitWidth * 3 + 16
  let subGates := bitWidth * 4 + 20
  let mulGates := bitWidth * 2 + 12
  let divGates := bitWidth * 2 + 12
  let decoderGates : ℤ := 12
  let muxGates := bitWidth * 6
  let baseGates := sharedGates + addGates + subGates + mulGates + divGates +
    decoderGates + muxGates
  let lutGates := if beta ≥ EFFICIENCY_THRESHOLD then lutLength * 4 else lutLength * 12
  let total := baseGates + lutGates
  { base := baseGates, lut := lutGates, total := total, shared := sharedGates,
    add := addGates, sub := subGates, mul := mulGates, div := divGates,
    control := decoderGates + muxGates }

/-- The `errorPercentage` memo (source lines 1026–1028). -/
def errorPercentage (beta : ℝ) : ℝ := 100 * (beta - 1) / (beta + 1)

/-! ### Spec-side definitions (for the refinement claim)

The specification describes the operation as a closed enumeration
`{add, sub, mul, div}` and gives a per-operation rule table followed by a
clamp.  These definitions follow the spec's words; the refinement theorem
compares them with `result` above, which follows the source. -/

/-- The spec's closed operation enumeration (spec §3). -/
inductive Operation where
  | add
  | sub
  | mul
  | div
  deriving DecidableEq, Repr

/-- The string tag the source's `switch` uses for each enumerated operation. -/
def Operation.tag : Operation → String
  | .add => "add"
  | .sub => "sub"
  | .mul => "mul"
  | .div => "div"

/-- The spec's `lutValue(d, β)` formula (spec §4.2): if β ≥ 2.0 and d > 0,
returns 1; otherwise `min(d, floor(log(d+1) / log(β)))`. -/
def specLutValue (d : ℤ) (beta : ℝ) : ℤ :=
  if beta ≥ 2.0 ∧ d > 0 then 1
  else min d ⌊Real.log (d + 1) / Real.log beta⌋

/-- The spec's per-operation rule table with final clamp (spec §4.3):
`d = |a−b|`, `m = max(a,b)`, `maxValue = 2^w − 1`, per-operation unclamped
`res`, then `result = min(max(0, res), maxValue)`. -/
def specResult (op : Operation) (a b : ℤ) (w : ℕ) (beta : ℝ) : ℤ :=
  let maxValue : ℤ := 2 ^ w - 1
  let d : ℤ := |a - b|
  let m : ℤ := max a b
  let res : ℤ :=
    match op with
    | .add => if a = 0 ∨ b = 0 then m
              else if d < 8 then m + specLutValue d beta
              else m
    | .sub => if a = b then 0
              else if a = 0 ∨ b = 0 then m
              else m - specLutValue d beta
    | .mul => if a = 0 ∨ b = 0 then 0
              else if a = 1 ∨ b = 1 then m
              else a + b - 1
    | .div => if a = 0 then 0
              else if b = 0 then maxValue
              else if a = b then 1
              else a - b + 1
  min (max 0 res) maxValue

/-! ### IEEE special-value model of the β = 1 singularity

`calculateLutLength` and `getLutValue` divide by `beta − 1` respectively by
`Math.log(beta)`, both zero at β = 1.  JavaScript numbers are IEEE-754
doubles, so those divisions silently produce `Infinity`/`NaN` rather than
an error.  `JSNum` models a JavaScript number as a finite real, `+∞`, `−∞`
or `NaN` (signed zero is not modelled; it does not arise on the inputs
considered), together with the `Math` operations the two functions use. -/

/-- A JavaScript number: finite value, `Infinity`, `-Infinity`, or `NaN`. -/
inductive JSNum where
  | num (x : ℝ)
  | posInf
  | negInf
  | nan

/-- JavaScript division, including division by zero (`x/0` is `±Infinity`
for nonzero `x` and `NaN` for `x = 0`) and the infinite cases. -/
def jsDiv : JSNum → JSNum → JSNum
  | .nan, _ => .nan
  | _, .nan => .nan
  | .num x, .num y =>
      if y = 0 then (if x = 0 then .nan else if x > 0 then .posInf else .negInf)
      else .num (x / y)
  | .posInf, .posInf => .nan
  | .posInf, .negInf => .nan
  | .negInf, .posInf => .nan
  | .negInf, .negInf => .nan
  | .posInf, .num y => if y ≥ 0 then .posInf else .negInf
  | .negInf, .num y => if y ≥ 0 then .negInf else .posInf
  | .num _, .posInf => .num 0
  | .num _, .negInf => .num 0

/-- `Math.log`: `NaN` on negative arguments, `-Infinity` at `0`. -/
def jsLog : JSNum → JSNum
  | .num x => if x < 0 then .nan else if x = 0 then .negInf else .num (Real.log x)
  | .posInf => .posInf
  | .negInf => .nan
  | .nan => .nan

/-- `Math.floor`: identity on `±Infinity` and `NaN`. -/
def jsFloor : JSNum → JSNum
  | .num x => .num ⌊x⌋
  | e => e

/-- `Math.min` of two values: `NaN` if either argument is `NaN`. -/
def jsMin : JSNum → JSNum → JSNum
  | .nan, _ => .nan
  | _, .nan => .nan
  | .num x, .num y => .num (min x y)
  | .negInf, _ => .negInf
  | _, .negInf => .negInf
  | .posInf, y => y
  | x, .posInf => x

/-- `Math.max` of two values: `NaN` if either argument is `NaN`. -/
def jsMax : JSNum → JSNum → JSNum
  | .nan, _ => .nan
  | _, .nan => .nan
  | .num x, .num y => .num (max x y)
  | .posInf, _ => .posInf
  | _, .posInf => .posInf
  | .negInf, y => y
  | x, .negInf => x

/-- `calculateLutLength` (source lines 130–133) re-read with IEEE-754
special-value semantics, to state what the code does at β = 1. -/
def calculateLutLengthJS (beta : ℝ) : JSNum :=
  let baseLength := jsMax (.num 1) (jsFloor (jsDiv (.num 8) (.num (beta - 1))))
  if beta ≥ EFFICIENCY_THRESHOLD then .num 1 else baseLength

/-- `getLutValue` (source lines 135–138) re-read with IEEE-754
special-value semantics, to state what the code does at β = 1. -/
def getLutValueJS (d beta : ℝ) : JSNum :=
  if beta ≥ EFFICIENCY_THRESHOLD ∧ d > 0 then .num 1
  else jsMin (.num d) (jsFloor (jsDiv (jsLog (.num (d + 1))) (jsLog (.num beta))))

/-! ### Double-precision model of `calculateLutLength(1.1)`

JavaScript evaluates `8 / (beta - 1)` in IEEE-754 binary64, not in exact
real arithmetic, and at β = 1.1 the two disagree: the double literal
`1.1` is `4953959590107546 / 2^52`, so `1.1 - 1` is
`0.10000000000000009…` and `8 / (1.1 - 1)` rounds to
`79.99999999999993`, whose floor is 79 — not the exact-arithmetic
`floor(8 / 0.1) = 80`.  A binary64 value in the binade `[2^e, 2^(e+1))`
is an integer significand in `[2^52, 2^53)` times `2^(e−52)`, and each
arithmetic operation returns the real result rounded to nearest with
ties to even; the computation below tracks those integer significands
exactly. -/

/-- Round-to-nearest, ties-to-even integer division: the correctly
rounded quotient of `a / b` for positive `a`, `b`, as IEEE-754 rounding
produces an integer significand from an exact real quotient. -/
def rneDiv (a b : ℤ) : ℤ :=
  let q := a / b
  let r := a % b
  if 2 * r < b then q
  else if b < 2 * r then q + 1
  else if q % 2 = 0 then q else q + 1

/-- `calculateLutLength(1.1)` (source line 131) evaluated in binary64:
`n1` is the significand of the double literal `1.1` (binade `[1, 2)`,
scale `2^52`, rounded from the decimal `11/10`); `n2` is the significand
of `1.1 - 1` (binade `[2^-4, 2^-3)`, scale `2^56`; the subtraction is
exact by Sterbenz's lemma since `n1 - 2^52 < 2^49`); `n3` is the
significand of `8 / (1.1 - 1)` (binade `[2^6, 2^7)`, scale `2^46`; the
exact quotient is `8 · 2^56 / n2 = 2^105 / n2` at that scale); and
`Math.floor` of `n3 / 2^46` followed by the source's `max(1, ·)`. -/
def calculateLutLengthFP11 : ℤ :=
  let n1 := rneDiv (11 * 2 ^ 52) 10
  let n2 := (n1 - 2 ^ 52) * 2 ^ 4
  let n3 := rneDiv (2 ^ 105) n2
  max 1 (n3 / 2 ^ 46)

/-! ### Helper lemmas -/

lemma EFFICIENCY_THRESHOLD_eq : EFFICIENCY_THRESHOLD = 2 := by
  norm_num [EFFICIENCY_THRESHOLD]

lemma specLutValue_eq (d : ℤ) (beta : ℝ) : specLutValue d beta = getLutValue d beta := rfl

lemma maxValue_nonneg (w : ℕ) : (0 : ℤ) ≤ 2 ^ w - 1 := by
  have h1 : (0 : ℤ) < 2 ^ w := by positivity
  omega

/-- For bit widths up to 30 the wrapping `(1 << w) - 1` agrees with the
unbounded `2 ^ w - 1`; the first divergence is at `w = 31`. -/
lemma jsMaxValue_eq_of_le (w : ℕ) (h : w ≤ 30) : jsMaxValue w = 2 ^ w - 1 := by
  have h32 : w % 32 = w := Nat.mod_eq_of_lt (by omega)
  have hle : (2 : ℤ) ^ w ≤ 2 ^ 30 := pow_le_pow_right₀ (by norm_num) h
  have hpos : (0 : ℤ) < 2 ^ w := by positivity
  have hmod : ((2 : ℤ) ^ w + 2 ^ 31) % 2 ^ 32 = 2 ^ w + 2 ^ 31 := by
    rw [Int.emod_eq_of_lt (by positivity) (by norm_num at hle ⊢; omega)]
  simp only [jsMaxValue, toInt32, h32, hmod]
  ring

/-! ### Claim theorems -/

/-- C1 counterexample: at w = 31 the program's wrapping
`(1 << 31) - 1 = -2147483649` poisons the clamp, so for a = 1, b = 2,
operation = div the calculator returns −2147483649 while the spec's
table (maxValue = 2^31 − 1) gives 0; the claim quantified over every
w ≥ 1 is false of the program. -/
theorem result_refines_spec_table_cex :
    result Operation.div.tag 1 2 31 2.5 = -2147483649 ∧
    specResult Operation.div 1 2 31 2.5 = 0 ∧
    result Operation.div.tag 1 2 31 2.5 ≠ specResult Operation.div 1 2 31 2.5 := by
  decide

/-- C1 (amended): for every bit width 1 ≤ w ≤ 30 — below the 32-bit wrap
of `(1 << bitWidth) - 1` — every β > 1 and operands a, b in [0, 2^w − 1],
the calculator's `result` equals the spec's per-operation rule table
(with its clamp `min(max(0, res), maxValue)`). -/
theorem result_refines_spec_table (w : ℕ) (a b : ℤ) (beta : ℝ) (op : Operation)
    (hw : 1 ≤ w) (hw30 : w ≤ 30) (hbeta : 1 < beta)
    (ha0 : 0 ≤ a) (ha1 : a ≤ 2 ^ w - 1) (hb0 : 0 ≤ b) (hb1 : b ≤ 2 ^ w - 1) :
    result op.tag a b w beta = specResult op a b w beta := by
  have hjs := jsMaxValue_eq_of_le w hw30
  cases op <;> (simp only [result, specResult, Operation.tag, specLutValue_eq]; rw [hjs])

/-- Witness for C1 at w = 4, a = 5, b = 3, β = 2.5, operation = add. -/
theorem result_refines_spec_table_witness :
    (1 ≤ 4 ∧ 4 ≤ 30 ∧ (1 : ℝ) < 2.5 ∧ (0 : ℤ) ≤ 5 ∧ (5 : ℤ) ≤ 2 ^ 4 - 1 ∧
      (0 : ℤ) ≤ 3 ∧ (3 : ℤ) ≤ 2 ^ 4 - 1) ∧
    result Operation.add.tag 5 3 4 2.5 = specResult Operation.add 5 3 4 2.5 :=
  ⟨by norm_num,
    result_refines_spec_table 4 5 3 2.5 Operation.add (by norm_num) (by norm_num)
      (by norm_num) (by norm_num) (by norm_num) (by norm_num) (by norm_num)⟩

/-- C2 counterexample: at w = 31, a = 1, b = 2, operation = div the
program clamps against the wrapped `maxValue = -2147483649` and returns
−2147483649, outside [0, 2^31 − 1]; the claim quantified over every
w ≥ 1 is false of the program. -/
theorem result_in_range_cex :
    result Operation.div.tag 1 2 31 2.5 = -2147483649 ∧
    ¬(0 ≤ result Operation.div.tag 1 2 31 2.5 ∧
      result Operation.div.tag 1 2 31 2.5 ≤ 2 ^ 31 - 1) := by
  decide

/-- C2 (amended): for every valid input tuple with 1 ≤ w ≤ 30 — below
the 32-bit wrap of `(1 << bitWidth) - 1` — the returned `result` lies in
[0, 2^w − 1], regardless of overflow or underflow of the unclamped
per-operation formula. -/
theorem result_in_range (w : ℕ) (a b : ℤ) (beta : ℝ) (op : Operation)
    (hw : 1 ≤ w) (hw30 : w ≤ 30) (hbeta : 1 < beta)
    (ha0 : 0 ≤ a) (ha1 : a ≤ 2 ^ w - 1) (hb0 : 0 ≤ b) (hb1 : b ≤ 2 ^ w - 1) :
    0 ≤ result op.tag a b w beta ∧ result op.tag a b w beta ≤ 2 ^ w - 1 := by
  have hjs := jsMaxValue_eq_of_le w hw30
  simp only [result]
  rw [hjs]
  exact ⟨le_min (le_max_left _ _) (maxValue_nonneg w), min_le_right _ _⟩

/-- Witness for C2 at w = 4, a = 15, b = 15, β = 1.5, operation = add
(the unclamped value 15 + lutValue(0, 1.5) stays in range after clamping). -/
theorem result_in_range_witness :
    (1 ≤ 4 ∧ 4 ≤ 30 ∧ (1 : ℝ) < 1.5 ∧ (0 : ℤ) ≤ 15 ∧ (15 : ℤ) ≤ 2 ^ 4 - 1 ∧
      (0 : ℤ) ≤ 15 ∧ (15 : ℤ) ≤ 2 ^ 4 - 1) ∧
    (0 ≤ result Operation.add.tag 15 15 4 1.5 ∧
      result Operation.add.tag 15 15 4 1.5 ≤ 2 ^ 4 - 1) :=
  ⟨by norm_num,
    result_in_range 4 15 15 1.5 Operation.add (by norm_num) (by norm_num)
      (by norm_num) (by norm_num) (by norm_num) (by norm_num) (by norm_num)⟩

/-- C3: for an operation tag outside {add, sub, mul, div} the code does
NOT reject the input; the `default` arm of the `switch` silently sets
`res = 0` and the clamped result is 0.  Here at operation = "mod",
a = 5, b = 3, w = 4, β = 2.5 the calculator returns 0. -/
theorem unknown_operation_defaults_to_zero :
    result "mod" 5 3 4 2.5 = 0 := rfl

/-- C4: at β = 1 neither function fails fast.  Under IEEE-754 semantics
`calculateLutLength(1)` divides 8 by 0 and returns `Infinity`, and
`getLutValue(0, 1)` divides `log(1) = 0` by `log(1) = 0` and returns
`NaN`; for a gap d > 0, `getLutValue(d, 1)` returns the finite value d
(from `min(d, Infinity)`). -/
theorem beta_one_not_fail_fast :
    calculateLutLengthJS 1 = JSNum.posInf ∧ getLutValueJS 0 1 = JSNum.nan ∧
    getLutValueJS 3 1 = JSNum.num 3 := by
  refine ⟨?_, ?_, ?_⟩
  · unfold calculateLutLengthJS
    rw [if_neg (by norm_num [EFFICIENCY_THRESHOLD])]
    norm_num [jsDiv, jsFloor, jsMax]
  · unfold getLutValueJS
    rw [if_neg (by norm_num [EFFICIENCY_THRESHOLD])]
    norm_num [jsLog, jsDiv, jsFloor, jsMin, Real.log_one]
  · unfold getLutValueJS
    rw [if_neg (by norm_num [EFFICIENCY_THRESHOLD])]
    have h4 : ¬ ((4:ℝ) < 0) := by norm_num
    have h4' : ¬ ((4:ℝ) = 0) := by norm_num
    norm_num [jsLog, jsDiv, jsFloor, jsMin, Real.log_one,
      Real.log_pos, (by norm_num : (3:ℝ) + 1 = 4)]

/-- C5: the program computes `8 / (beta - 1)` in IEEE-754 doubles, and at
β = 1.1 the quotient is 79.99999999999993 (significand 5629499534213115
at scale 2^46), so `calculateLutLength(1.1)` returns
`max(1, Math.floor(...)) = 79` — not the 80 the claim (and spec §8)
states from the exact-arithmetic `floor(8 / 0.1)`. -/
theorem lutLength_at_beta_1_1_is_79 :
    calculateLutLengthFP11 = 79 ∧ calculateLutLengthFP11 ≠ 80 := by
  decide

/-- C6: for β > 1 and gap d ≥ 0, `getLutValue(d, β)` is 1 when β ≥ 2.0
and d > 0, is `min(d, floor(log(d+1) / log(β)))` otherwise, and is 0 at
d = 0 regardless of β. -/
theorem getLutValue_formula (d : ℤ) (beta : ℝ) (hbeta : 1 < beta) (hd : 0 ≤ d) :
    (2 ≤ beta ∧ 0 < d → getLutValue d beta = 1) ∧
    (¬(2 ≤ beta ∧ 0 < d) →
      getLutValue d beta = min d ⌊Real.log ((d : ℝ) + 1) / Real.log beta⌋) ∧
    (d = 0 → getLutValue d beta = 0) := by
  refine ⟨?_, ?_, ?_⟩
  · intro h
    simp only [getLutValue, EFFICIENCY_THRESHOLD_eq]
    rw [if_pos ⟨h.1, h.2⟩]
  · intro h
    simp only [getLutValue, EFFICIENCY_THRESHOLD_eq]
    rw [if_neg]
    intro hc
    exact h ⟨hc.1, hc.2⟩
  · intro h
    subst h
    simp only [getLutValue, EFFICIENCY_THRESHOLD_eq]
    rw [if_neg (by simp)]
    norm_num [Real.log_one]

/-- Witness for C6: the three parts at (d, β) = (2, 2.5), (3, 1.5) and
(0, 2.5). -/
theorem getLutValue_formula_witness :
    (((2 : ℝ) ≤ 2.5 ∧ (0 : ℤ) < 2) ∧ getLutValue 2 2.5 = 1) ∧
    (¬((2 : ℝ) ≤ 1.5 ∧ (0 : ℤ) < 3) ∧
      getLutValue 3 1.5 = min 3 ⌊Real.log ((3 : ℤ) + 1 : ℝ) / Real.log 1.5⌋) ∧
    getLutValue 0 2.5 = 0 :=
  ⟨⟨⟨by norm_num, by norm_num⟩,
      (getLutValue_formula 2 2.5 (by norm_num) (by norm_num)).1 ⟨by norm_num, by norm_num⟩⟩,
    ⟨by norm_num,
      (getLutValue_formula 3 1.5 (by norm_num) (by norm_num)).2.1 (by norm_num)⟩,
    (getLutValue_formula 0 2.5 (by norm_num) (by norm_num)).2.2 rfl⟩

/-- C10 counterexample: at w = 31, a = 1, b = 2 the unclamped div value
is a − b + 1 = 0, but the clamp against the wrapped
`maxValue = -2147483649` returns −2147483649, not 0; the claim
quantified over every w ≥ 1 is false of the program. -/
theorem div_smaller_by_larger_cex :
    result Operation.div.tag 1 2 31 2.5 = -2147483649 ∧
    result Operation.div.tag 1 2 31 2.5 ≠ 0 := by
  decide

/-- C10 (amended): for every bit width 1 ≤ w ≤ 30 — below the 32-bit
wrap of `(1 << bitWidth) - 1` — dividing a smaller nonzero operand by a
strictly larger one always clamps to 0, because the unclamped value
a − b + 1 is ≤ 0. -/
theorem div_smaller_by_larger_is_zero (w : ℕ) (a b : ℤ) (beta : ℝ)
    (hw : 1 ≤ w) (hw30 : w ≤ 30) (h0a : 0 < a) (hab : a < b) (hb : b ≤ 2 ^ w - 1) :
    result Operation.div.tag a b w beta = 0 := by
  have hjs := jsMaxValue_eq_of_le w hw30
  show min (max 0 (if a = 0 then 0 else if b = 0 then jsMaxValue w
    else if a = b then 1 else a - b + 1)) (jsMaxValue w) = 0
  rw [hjs, if_neg (by omega), if_neg (by omega), if_neg (by omega)]
  rw [max_eq_left (by omega), min_eq_left (maxValue_nonneg w)]

/-- Witness for C10 at w = 3, a = 2, b = 5 (β = 2.5). -/
theorem div_smaller_by_larger_is_zero_witness :
    (1 ≤ 3 ∧ 3 ≤ 30 ∧ (0 : ℤ) < 2 ∧ (2 : ℤ) < 5 ∧ (5 : ℤ) ≤ 2 ^ 3 - 1) ∧
    result Operation.div.tag 2 5 3 2.5 = 0 :=
  ⟨by norm_num,
    div_smaller_by_larger_is_zero 3 2 5 2.5 (by norm_num) (by norm_num)
      (by norm_num) (by norm_num) (by norm_num)⟩

/-- In the real-number model the slider round trip is exact on the open
interval (1.02, 30.0): the two clamp branches of `betaToSlider` are
skipped and `exp` undoes `log` on the positive argument β − 1. -/
lemma slider_roundtrip_exact (beta : ℝ) (h1 : 1.02 < beta) (h2 : beta < 30.0) :
    sliderToBeta (betaToSlider beta) = beta := by
  have hlogMin : Real.log 0.02 < 0 := Real.log_neg (by norm_num) (by norm_num)
  have hlogMax : 0 < Real.log 29.0 := Real.log_pos (by norm_num)
  have hne : Real.log 29.0 - Real.log 0.02 ≠ 0 := by
    intro h
    linarith
  have hb1 : (0 : ℝ) < beta - 1.0 := by norm_num; linarith
  have key : Real.log 0.02 + (Real.log (beta - 1.0) - Real.log 0.02) /
      (Real.log 29.0 - Real.log 0.02) * 100 / 100 * (Real.log 29.0 - Real.log 0.02) =
      Real.log (beta - 1.0) := by
    field_simp
    ring
  simp only [betaToSlider, sliderToBeta]
  rw [if_neg (by linarith), if_neg (by norm_num; linarith)]
  rw [key, Real.exp_log hb1]
  rw [show (1.0 : ℝ) + (beta - 1.0) = beta by ring]
  rw [min_eq_right (by linarith), max_eq_right (by linarith)]

/-- C7: for every β strictly inside (1.02, 30.0) the round trip
`sliderToBeta(betaToSlider(β))` is within 1e-6 relative error of β
(in the real-number model it is exact, so the bound holds a fortiori). -/
theorem slider_roundtrip_close (beta : ℝ) (h1 : 1.02 < beta) (h2 : beta < 30.0) :
    |sliderToBeta (betaToSlider beta) - beta| ≤ 1e-6 * beta := by
  rw [slider_roundtrip_exact beta h1 h2, sub_self, abs_zero]
  have : (0 : ℝ) < beta := by linarith
  positivity

/-- Witness for C7 at β = 2.5. -/
theorem slider_roundtrip_close_witness :
    ((1.02 : ℝ) < 2.5 ∧ (2.5 : ℝ) < 30.0) ∧
    |sliderToBeta (betaToSlider 2.5) - 2.5| ≤ 1e-6 * 2.5 :=
  ⟨⟨by norm_num, by norm_num⟩, slider_roundtrip_close 2.5 (by norm_num) (by norm_num)⟩

/-- C8: `errorPercentage(β) = 100(β−1)/(β+1)` is strictly increasing for
β > 1, lies in the open interval (0, 100) for every β > 1, and equals
100/3 at β = 2.0. -/
theorem errorPercentage_monotone_bounded :
    (∀ b1 b2 : ℝ, 1 < b1 → b1 < b2 → errorPercentage b1 < errorPercentage b2) ∧
    (∀ beta : ℝ, 1 < beta → 0 < errorPercentage beta ∧ errorPercentage beta < 100) ∧
    errorPercentage 2.0 = 100 / 3 := by
  refine ⟨?_, ?_, ?_⟩
  · intro b1 b2 h1 h2
    unfold errorPercentage
    rw [div_lt_div_iff₀ (by linarith) (by linarith)]
    nlinarith
  · intro beta h
    unfold errorPercentage
    constructor
    · exact div_pos (by linarith) (by linarith)
    · rw [div_lt_iff₀ (by linarith)]
      linarith
  · norm_num [errorPercentage]

/-- Witness for C8: monotonicity at (1.5, 2), bounds at β = 1.5, and the
concrete value at β = 2.0. -/
theorem errorPercentage_monotone_bounded_witness :
    ((1 : ℝ) < 1.5 ∧ (1.5 : ℝ) < 2 ∧ errorPercentage 1.5 < errorPercentage 2) ∧
    ((1 : ℝ) < 1.5 ∧ 0 < errorPercentage 1.5 ∧ errorPercentage 1.5 < 100) ∧
    errorPercentage 2.0 = 100 / 3 :=
  ⟨⟨by norm_num, by norm_num,
      errorPercentage_monotone_bounded.1 1.5 2 (by norm_num) (by norm_num)⟩,
    ⟨by norm_num, errorPercentage_monotone_bounded.2.1 1.5 (by norm_num)⟩,
    errorPercentage_monotone_bounded.2.2⟩

/-- C9: at w = 4 and β = 2.5 (Simplified Mode, lutLength = 1) the
gate-count breakdown is shared 56, add 28, sub 36, mul 20, div 20,
control 36, lut 4, total 200. -/
theorem gateCount_w4_beta25 :
    (gateCount 4 2.5).shared = 56 ∧ (gateCount 4 2.5).add = 28 ∧
    (gateCount 4 2.5).sub = 36 ∧ (gateCount 4 2.5).mul = 20 ∧
    (gateCount 4 2.5).div = 20 ∧ (gateCount 4 2.5).control = 36 ∧
    (gateCount 4 2.5).lut = 4 ∧ (gateCount 4 2.5).total = 200 := by
  have hlut : calculateLutLength 2.5 = 1 := by
    simp only [calculateLutLength, EFFICIENCY_THRESHOLD_eq]
    rw [if_pos (by norm_num)]
  simp only [gateCount, hlut, EFFICIENCY_THRESHOLD_eq]
  norm_num

end Tilde

end
